import Mathlib

/-!
Shallow embedding of the match-analysis engine in `src/script.js` (Sports Match
Analyzer, "Model V1").  Match records, ingestion and validation are modelled
computably over `ℤ`/`ℚ`/`String`; the statistical feature pipeline and the
prediction model, which use `Math.exp`/`Math.sqrt`, are modelled over `ℝ`.
JavaScript floating-point arithmetic is modelled as exact real arithmetic.
-/

namespace ModelV2

/-- The three record categories of `matchData` (`h2h`, `team1`, `team2`). -/
inductive Category
  | h2h
  | team1
  | team2
deriving DecidableEq, Repr

/-- One stored match record, as built by `processMatchScore`.  Score slots are
integers (validated non-negative at ingestion); `outcome` is the interpolated
string the source builds (for example `"<team1Name> Wins"`). -/
structure MatchRecord where
  matchNumber : ℕ
  team1Score : ℤ
  team2Score : ℤ
  totalScore : ℤ
  outcome : String
  category : Category
  totalOverLine : Option Bool
  spreadCover : Option String
  marginOfVictory : ℤ
  goalEfficiency : ℚ
  cleanSheet : Bool
  timestamp : ℤ
deriving DecidableEq, Repr

/-- The process-wide configuration read by the pipeline: team names, rankings,
match importance, location, betting lines and spread direction. -/
structure Config where
  team1Name : String
  team2Name : String
  team1Ranking : ℤ
  team2Ranking : ℤ
  matchImportance : ℚ
  matchLocation : String
  totalLine : ℚ
  pointSpread : ℚ
  spreadDirection : String
deriving DecidableEq, Repr

/-- The `matchData` store: three ordered sequences of match records. -/
structure Store where
  h2h : List MatchRecord
  team1 : List MatchRecord
  team2 : List MatchRecord
deriving DecidableEq, Repr

/-- `matchData[category]`. -/
def Store.get (s : Store) : Category → List MatchRecord
  | Category.h2h => s.h2h
  | Category.team1 => s.team1
  | Category.team2 => s.team2

/-- `matchData[category] = l`. -/
def Store.set (s : Store) (c : Category) (l : List MatchRecord) : Store :=
  match c with
  | Category.h2h => { s with h2h := l }
  | Category.team1 => { s with team1 := l }
  | Category.team2 => { s with team2 := l }

/-- `getTotalMatchCount()`. -/
def getTotalMatchCount (s : Store) : ℕ :=
  s.h2h.length + s.team1.length + s.team2.length

/-- `MIN_MATCHES_FOR_GOOD_ANALYSIS`. -/
def MIN_MATCHES_FOR_GOOD_ANALYSIS : ℕ := 4

/-- `MIN_MATCHES_FOR_EXCELLENT_ANALYSIS`. -/
def MIN_MATCHES_FOR_EXCELLENT_ANALYSIS : ℕ := 8

/-- `MIN_H2H_MATCHES`. -/
def MIN_H2H_MATCHES : ℕ := 2

/-- `calculateSpreadCover(team1Score, team2Score)`: compares the favored
team's score minus the spread against the opposing score. -/
def calculateSpreadCover (cfg : Config) (team1Score team2Score : ℤ) : Option String :=
  if cfg.pointSpread ≤ 0 then none
  else
    let adjustedScore : ℚ :=
      (if cfg.spreadDirection = "team1" then (team1Score : ℚ) else (team2Score : ℚ)) -
        cfg.pointSpread
    let opposingScore : ℚ :=
      if cfg.spreadDirection = "team1" then (team2Score : ℚ) else (team1Score : ℚ)
    if adjustedScore > opposingScore then some "Favorite Covered"
    else if adjustedScore < opposingScore then some "Underdog Covered"
    else some "Push"

/-- The record built by `processMatchScore(category, matchNumber, score1, score2,
timestamp)`, before it is pushed into the store.  In the `team2` category the
raw first score is the named team's own score and is mapped into the
`team2Score` slot, the opponent's score into the `team1Score` slot. -/
def mkMatchRecord (cfg : Config) (category : Category) (matchNumber : ℕ)
    (score1 score2 timestamp : ℤ) : MatchRecord :=
  let totalScore := score1 + score2
  let team1Score := if category = Category.team2 then score2 else score1
  let team2Score := if category = Category.team2 then score1 else score2
  let outcome :=
    match category with
    | Category.h2h =>
        if team1Score = team2Score then "Draw"
        else if team1Score > team2Score then cfg.team1Name ++ " Wins"
        else cfg.team2Name ++ " Wins"
    | Category.team1 =>
        if team1Score = team2Score then "Draw"
        else if team1Score > team2Score then cfg.team1Name ++ " Wins"
        else "Opponent Wins"
    | Category.team2 =>
        if team1Score = team2Score then "Draw"
        else if team1Score > team2Score then "Opponent Wins"
        else cfg.team2Name ++ " Wins"
  { matchNumber := matchNumber
    team1Score := team1Score
    team2Score := team2Score
    totalScore := totalScore
    outcome := outcome
    category := category
    totalOverLine :=
      if cfg.totalLine > 0 then some (decide ((totalScore : ℚ) > cfg.totalLine)) else none
    spreadCover :=
      if cfg.pointSpread > 0 then calculateSpreadCover cfg team1Score team2Score else none
    marginOfVictory := |team1Score - team2Score|
    goalEfficiency :=
      if totalScore > 0 then ((max team1Score team2Score : ℤ) : ℚ) / (totalScore : ℚ)
      else 1 / 2
    cleanSheet := team1Score == 0 || team2Score == 0
    timestamp := timestamp }

/-- The ascending-timestamp comparator `(a, b) => a.timestamp - b.timestamp`
used to keep each category sorted oldest first (JS sort is stable). -/
def byTimestampAsc (a b : MatchRecord) : Bool :=
  decide (a.timestamp ≤ b.timestamp)

/-- `processMatchScore`: builds the record, appends it to its category and
re-sorts the category ascending by timestamp. -/
def processMatchScore (cfg : Config) (category : Category) (matchNumber : ℕ)
    (score1 score2 timestamp : ℤ) (s : Store) : Store :=
  let r := mkMatchRecord cfg category matchNumber score1 score2 timestamp
  s.set category (List.mergeSort (s.get category ++ [r]) byTimestampAsc)

/-- `validateScores(scores1, scores2)`: rejects negative values and empty
arrays (a length mismatch only warns). -/
def validateScores (scores1 scores2 : List ℤ) : Bool :=
  if scores1.any (fun v => v < 0) || scores2.any (fun v => v < 0) then false
  else if scores1.length = 0 || scores2.length = 0 then false
  else true

/-- Milliseconds in seven days, the spacing `handle*Add` puts between the
synthetic timestamps of successive matches. -/
def WEEK_MS : ℤ := 604800000

/-- Common core of `handleH2HAdd` / `handleTeam1Add` / `handleTeam2Add`:
validate, clear the category, then add the first `min(len1, len2)` score pairs
with increasing timestamps (oldest first).  `now` stands for `Date.now()`. -/
def handleAdd (cfg : Config) (category : Category) (s : Store)
    (scores1 scores2 : List ℤ) (now : ℤ) : Store :=
  if validateScores scores1 scores2 then
    let cleared := s.set category []
    let minLength := min scores1.length scores2.length
    (List.range minLength).foldl
      (fun st i =>
        processMatchScore cfg category (i + 1) (scores1.getD i 0) (scores2.getD i 0)
          (now - ((minLength : ℤ) - (i : ℤ)) * WEEK_MS) st)
      cleared
  else s

/-- `validateInputs()`: run before the analysis pipeline.  `userConfirms`
stands for the user's answer to the low-data `confirm(...)` dialog. -/
def validateInputs (s : Store) (cfg : Config) (userConfirms : Bool) : Bool :=
  if getTotalMatchCount s = 0 then false
  else if cfg.team1Name.trim = "" ∨ cfg.team2Name.trim = "" then false
  else if cfg.team1Name.trim = cfg.team2Name.trim then false
  else if getTotalMatchCount s < MIN_MATCHES_FOR_GOOD_ANALYSIS then userConfirms
  else true

/-- `updateSpreadCoverCalculations()`: recomputes `spreadCover` and
`totalOverLine` on every record of every category from the current lines. -/
def updateSpreadCoverCalculations (cfg : Config) (s : Store) : Store :=
  let upd := fun (m : MatchRecord) =>
    { m with
      spreadCover :=
        if cfg.pointSpread > 0 then calculateSpreadCover cfg m.team1Score m.team2Score
        else none
      totalOverLine :=
        if cfg.totalLine > 0 then some (decide ((m.totalScore : ℚ) > cfg.totalLine))
        else none }
  { h2h := s.h2h.map upd, team1 := s.team1.map upd, team2 := s.team2.map upd }

/-! ### Prediction model: probabilities and consistency reconciliation -/

/-- The win-probability triple returned by `calculateModelV1WinProbabilities`. -/
structure Probabilities where
  team1WinProb : ℝ
  team2WinProb : ℝ
  drawProb : ℝ

/-- The outcome labels used inside `ensurePredictionConsistency`. -/
inductive Winner
  | team1
  | team2
  | draw
deriving DecidableEq, Repr

/-- The probability-implied winner: the source compares each probability
against `highestProb` in the order team1, team2, draw (ties go to the
earlier team). -/
noncomputable def predictedWinnerOf (p : Probabilities) : Winner :=
  let highestProb := max p.team1WinProb (max p.team2WinProb p.drawProb)
  if p.team1WinProb = highestProb then Winner.team1
  else if p.team2WinProb = highestProb then Winner.team2
  else Winner.draw

/-- The margin-implied winner (`marginThreshold = 0.25`). -/
noncomputable def marginPredictedWinnerOf (projectedMargin : ℝ) : Winner :=
  if projectedMargin > 0.25 then Winner.team1
  else if projectedMargin < -0.25 then Winner.team2
  else Winner.draw

/-- `ensurePredictionConsistency(probabilities, projectedMargin)`: returns the
(unchanged) probabilities together with the reconciled margin. -/
noncomputable def ensurePredictionConsistency (p : Probabilities) (projectedMargin : ℝ) :
    Probabilities × ℝ :=
  if predictedWinnerOf p = Winner.draw then (p, projectedMargin * 0.2)
  else if predictedWinnerOf p ≠ marginPredictedWinnerOf projectedMargin then
    if predictedWinnerOf p = Winner.team1 then
      (p, max 0.25 (|projectedMargin| * 0.8))
    else if predictedWinnerOf p = Winner.team2 then
      (p, min (-0.25) (-(|projectedMargin| * 0.8)))
    else (p, projectedMargin)
  else (p, projectedMargin)

/-! ### Feature snapshot -/

/-- `basicStats` of the feature snapshot. -/
structure BasicStats where
  team1AvgScore : ℝ
  team2AvgScore : ℝ
  team1AvgConceded : ℝ
  team2AvgConceded : ℝ
  h2hAdvantage : ℝ
  locationFactor : ℝ
  rankingDiff : ℝ
  matchImportance : ℝ
  totalLine : ℝ
  pointSpread : ℝ
  spreadDirection : ℝ

/-- `advancedStats` of the feature snapshot. -/
structure AdvancedStats where
  team1RecentForm : ℝ
  team2RecentForm : ℝ
  team1DefenseStrength : ℝ
  team2DefenseStrength : ℝ
  team1AttackStrength : ℝ
  team2AttackStrength : ℝ
  team1Consistency : ℝ
  team2Consistency : ℝ
  team1MomentumIndex : ℝ
  team2MomentumIndex : ℝ
  team1HomeAdvantage : ℝ
  team2HomeAdvantage : ℝ
  team1MatchImportancePerformance : ℝ
  team2MatchImportancePerformance : ℝ

/-- The scoring-trend triple of `calculateScoringTrends()`. -/
structure ScoringTrends where
  team1Trend : ℝ
  team2Trend : ℝ
  overallTrend : ℝ

/-- The clean-sheet statistics of `calculateCleanSheetStats()`. -/
structure CleanSheetStats where
  team1CleanSheetPct : ℝ
  team2CleanSheetPct : ℝ
  team1CleanSheets : ℕ
  team2CleanSheets : ℕ
  team1Matches : ℕ
  team2Matches : ℕ

/-- `trends` of the feature snapshot. -/
structure Trends where
  scoring : ScoringTrends
  cleanSheets : CleanSheetStats

/-- `dataQuality` of the feature snapshot. -/
structure DataQuality where
  totalMatches : ℕ
  team1Matches : ℕ
  team2Matches : ℕ
  h2hMatches : ℕ
  dataSufficiency : Bool
  dataExcellence : Bool

/-- The aggregated feature snapshot produced by `prepareMatchFeatures()`. -/
structure FeatureSnapshot where
  basicStats : BasicStats
  advancedStats : AdvancedStats
  trends : Trends
  dataQuality : DataQuality

/-! ### Win probabilities (`calculateModelV1WinProbabilities`) -/

namespace WEIGHTS

/-- `WEIGHTS.RECENT_FORM`. -/
def RECENT_FORM : ℝ := 2.8

/-- `WEIGHTS.H2H_MATCHES`. -/
def H2H_MATCHES : ℝ := 2.5

/-- `WEIGHTS.OVERALL_PERFORMANCE`. -/
def OVERALL_PERFORMANCE : ℝ := 2.2

/-- `WEIGHTS.HOME_ADVANTAGE`. -/
def HOME_ADVANTAGE : ℝ := 1.6

/-- `WEIGHTS.RANKING`. -/
def RANKING : ℝ := 1.2

/-- `WEIGHTS.MATCH_IMPORTANCE`. -/
def MATCH_IMPORTANCE : ℝ := 1.5

/-- `WEIGHTS.MOMENTUM`. -/
def MOMENTUM : ℝ := 2.0

end WEIGHTS

/-- `attackDifference`: relative strength of the two teams. -/
def attackDifference (f : FeatureSnapshot) : ℝ :=
  (f.advancedStats.team1AttackStrength - f.advancedStats.team2DefenseStrength) -
    (f.advancedStats.team2AttackStrength - f.advancedStats.team1DefenseStrength)

/-- `advantageCoefficient`: the weighted sum of factor differences, with the
conditional location / importance / ranking terms. -/
noncomputable def advantageCoefficient (f : FeatureSnapshot) : ℝ :=
  let base :=
    attackDifference f * WEIGHTS.OVERALL_PERFORMANCE +
      (f.advancedStats.team1RecentForm - f.advancedStats.team2RecentForm) *
        WEIGHTS.RECENT_FORM +
      f.basicStats.h2hAdvantage * WEIGHTS.H2H_MATCHES +
      (f.advancedStats.team1MomentumIndex - f.advancedStats.team2MomentumIndex) *
        WEIGHTS.MOMENTUM
  let withLocation :=
    if f.basicStats.locationFactor ≠ 0 then
      base + f.basicStats.locationFactor *
        (if f.basicStats.locationFactor = 1 then f.advancedStats.team1HomeAdvantage
         else f.advancedStats.team2HomeAdvantage) * WEIGHTS.HOME_ADVANTAGE
    else base
  let withImportance :=
    if f.basicStats.matchImportance ≠ 1 then
      withLocation + (f.basicStats.matchImportance - 1) *
        (f.advancedStats.team1MatchImportancePerformance -
          f.advancedStats.team2MatchImportancePerformance) * WEIGHTS.MATCH_IMPORTANCE
    else withLocation
  if f.basicStats.rankingDiff ≠ 0 then
    withImportance +
      (-Real.sign f.basicStats.rankingDiff * min 1 (|f.basicStats.rankingDiff| / 20)) *
        WEIGHTS.RANKING
  else withImportance

/-- `normalizedAdvantage`: the advantage coefficient clamped to `[-3, 3]`. -/
noncomputable def normalizedAdvantage (f : FeatureSnapshot) : ℝ :=
  max (-3) (min 3 (advantageCoefficient f))

/-- `baseDrawRate`: the draw-probability base before clamping. -/
noncomputable def baseDrawRate (f : FeatureSnapshot) : ℝ :=
  let scoringRate := f.basicStats.team1AvgScore + f.basicStats.team2AvgScore
  let projectedMarginAbs := |attackDifference f|
  let base := 35 - scoringRate * 4 - projectedMarginAbs * 15
  let withDefense :=
    if f.advancedStats.team1DefenseStrength < 0.8 ∧
        f.advancedStats.team2DefenseStrength < 0.8 then
      base + 10
    else base
  if f.basicStats.matchImportance > 1.3 then
    withDefense + (f.basicStats.matchImportance - 1.3) * 8
  else withDefense

/-- The draw probability computed ahead of the win split:
`Math.max(5, Math.min(45, baseDrawRate))`. -/
noncomputable def drawProbStage (f : FeatureSnapshot) : ℝ :=
  max 5 (min 45 (baseDrawRate f))

/-- `baseTeam1WinProb`: team1's logistic share of the mass left after the draw
allocation. -/
noncomputable def baseTeam1WinProb (f : FeatureSnapshot) : ℝ :=
  (100 - drawProbStage f) / (1 + Real.exp (-normalizedAdvantage f))

/-- The probability triple before the first normalization. -/
noncomputable def winProbsRaw (f : FeatureSnapshot) : Probabilities :=
  { team1WinProb := baseTeam1WinProb f
    team2WinProb := (100 - drawProbStage f) - baseTeam1WinProb f
    drawProb := drawProbStage f }

/-- The triple after the first normalization to sum 100. -/
noncomputable def winProbsNormalized (f : FeatureSnapshot) : Probabilities :=
  let p := winProbsRaw f
  let total := p.team1WinProb + p.team2WinProb + p.drawProb
  { team1WinProb := p.team1WinProb / total * 100
    team2WinProb := p.team2WinProb / total * 100
    drawProb := p.drawProb / total * 100 }

/-- The triple after the insufficient-data 30% blend toward the neutral prior
(team1 = 40, team2 = 40, draw = 20); identity when data is sufficient. -/
noncomputable def winProbsBlended (f : FeatureSnapshot) : Probabilities :=
  let p := winProbsNormalized f
  if f.dataQuality.dataSufficiency then p
  else
    { team1WinProb := p.team1WinProb * (1 - 0.3) + 40 * 0.3
      team2WinProb := p.team2WinProb * (1 - 0.3) + 40 * 0.3
      drawProb := p.drawProb * (1 - 0.3) + 20 * 0.3 }

/-- `calculateModelV1WinProbabilities(features)`: floor each probability at 5,
then renormalize to sum 100. -/
noncomputable def calculateModelV1WinProbabilities (f : FeatureSnapshot) : Probabilities :=
  let p := winProbsBlended f
  let team1WinProb := max 5 p.team1WinProb
  let team2WinProb := max 5 p.team2WinProb
  let drawProb := max 5 p.drawProb
  let finalTotal := team1WinProb + team2WinProb + drawProb
  { team1WinProb := team1WinProb / finalTotal * 100
    team2WinProb := team2WinProb / finalTotal * 100
    drawProb := drawProb / finalTotal * 100 }

/-- Following the spec's words (refinement comparison for the draw formula):
"base = 35 − 4×(combined scoring rate) − 15×|attack difference|, +10 if both
teams' defense strength <0.8, +8×(importance−1.3) if importance>1.3; clamp to
[5,45]". -/
noncomputable def drawProbSpec (f : FeatureSnapshot) : ℝ :=
  let combinedScoringRate := f.basicStats.team1AvgScore + f.basicStats.team2AvgScore
  let base :=
    35 - 4 * combinedScoringRate - 15 * |attackDifference f| +
      (if f.advancedStats.team1DefenseStrength < 0.8 ∧
          f.advancedStats.team2DefenseStrength < 0.8 then (10 : ℝ) else 0) +
      (if f.basicStats.matchImportance > 1.3 then
          8 * (f.basicStats.matchImportance - 1.3) else 0)
  min 45 (max 5 base)

/-! ### Score distribution (`generateScoreDistribution`) -/

/-- One row of the score-distribution table; the "Other" bucket uses score
slots `-1`. -/
structure ScoreCell where
  team1Score : ℤ
  team2Score : ℤ
  probability : ℝ

/-- `poissonProbability(k, lambda)`. -/
noncomputable def poissonProbability (k : ℕ) (lambda : ℝ) : ℝ :=
  if lambda ≤ 0 then (if k = 0 then 1 else 0)
  else Real.exp (-lambda) * lambda ^ k / (Nat.factorial k : ℝ)

/-- The pre-normalization probability (in percent) of the scoreline
`(t1, t2)`: independent Poisson masses times the five correlation
corrections, times 100. -/
noncomputable def rawScoreProb (projectedTotal team1Mean team2Mean : ℝ) (t1 t2 : ℕ) : ℝ :=
  let base := poissonProbability t1 team1Mean * poissonProbability t2 team2Mean
  let c1 := if t1 = t2 then base * 1.3 else base
  let c2 := if t1 = 0 ∧ t2 = 0 ∧ projectedTotal < 2.0 then c1 * 1.7 else c1
  let c3 := if (t1 ≥ 3 ∧ t2 ≥ 2) ∨ (t1 ≥ 2 ∧ t2 ≥ 3) then c2 * 1.2 else c2
  let c4 := if t1 + t2 > 6 then c3 * 0.7 else c3
  let c5 :=
    if (t1 = 1 ∧ t2 = 0) ∨ (t1 = 0 ∧ t2 = 1) ∨ (t1 = 1 ∧ t2 = 1) ∨
        (t1 = 2 ∧ t2 = 1) ∨ (t1 = 1 ∧ t2 = 2) then c4 * 1.15
    else c4
  c5 * 100

/-- The 25 enumerated cells, 0-0 through 4-4, in generation order. -/
noncomputable def rawScoreCells (projectedTotal projectedMargin : ℝ) : List ScoreCell :=
  let team1Mean := projectedTotal / 2 + projectedMargin / 2
  let team2Mean := projectedTotal / 2 - projectedMargin / 2
  (List.range 5).flatMap fun (t1 : ℕ) =>
    (List.range 5).map fun (t2 : ℕ) =>
      { team1Score := (t1 : ℤ), team2Score := (t2 : ℤ),
        probability := rawScoreProb projectedTotal team1Mean team2Mean t1 t2 }

/-- The sum of the 25 pre-normalization cell probabilities. -/
noncomputable def rawScoreTotal (projectedTotal projectedMargin : ℝ) : ℝ :=
  ((rawScoreCells projectedTotal projectedMargin).map ScoreCell.probability).sum

/-- The 25 cells normalized to sum 100. -/
noncomputable def normalizedScoreCells (projectedTotal projectedMargin : ℝ) : List ScoreCell :=
  (rawScoreCells projectedTotal projectedMargin).map fun d =>
    { d with probability := d.probability / rawScoreTotal projectedTotal projectedMargin * 100 }

/-- The remainder assigned to the "Other" bucket:
`Math.max(0, 100 - <sum of the normalized cells>)`. -/
noncomputable def scoreOtherProb (projectedTotal projectedMargin : ℝ) : ℝ :=
  max 0 (100 - ((normalizedScoreCells projectedTotal projectedMargin).map
    ScoreCell.probability).sum)

/-- `generateScoreDistribution(projectedTotal, projectedMargin)`: normalized
cells, the "Other" bucket when its remainder exceeds 0.1, sorted descending by
probability (JS sort is stable). -/
noncomputable def generateScoreDistribution (projectedTotal projectedMargin : ℝ) :
    List ScoreCell :=
  let withOther :=
    if scoreOtherProb projectedTotal projectedMargin > 0.1 then
      normalizedScoreCells projectedTotal projectedMargin ++
        [{ team1Score := -1, team2Score := -1,
           probability := scoreOtherProb projectedTotal projectedMargin }]
    else normalizedScoreCells projectedTotal projectedMargin
  List.mergeSort withOther fun a b => decide (b.probability ≤ a.probability)

/-! ### Statistical feature extractors -/

/-- Newest-first sort `(a, b) => b.timestamp - a.timestamp` (stable). -/
def sortNewestFirst (l : List MatchRecord) : List MatchRecord :=
  List.mergeSort l fun a b => decide (b.timestamp ≤ a.timestamp)

/-- `calculateCategoryAverage(category, property)` with the property made an
explicit selector. -/
noncomputable def calculateCategoryAverage (ms : List MatchRecord)
    (prop : MatchRecord → ℤ) : ℝ :=
  if ms.length = 0 then 0
  else ((ms.map fun m => ((prop m : ℤ) : ℝ)).sum) / (ms.length : ℝ)

/-- `calculateOverallTeamAverage(teamName, isTeam1)`: mean of the team's own
score across H2H plus its own series; 1.5 when no data. -/
noncomputable def calculateOverallTeamAverage (s : Store) (isTeam1 : Bool) : ℝ :=
  let own := if isTeam1 then s.team1 else s.team2
  let scoreOf := fun (m : MatchRecord) => if isTeam1 then m.team1Score else m.team2Score
  let sum := ((s.h2h.map scoreOf).sum + (own.map scoreOf).sum : ℤ)
  let count := s.h2h.length + own.length
  if count > 0 then (sum : ℝ) / (count : ℝ) else 1.5

/-- `calculateTeamAverageConceded(teamName, isTeam1)`: mean of the opponent's
score across H2H plus the team's own series; 1.5 when no data. -/
noncomputable def calculateTeamAverageConceded (s : Store) (isTeam1 : Bool) : ℝ :=
  let own := if isTeam1 then s.team1 else s.team2
  let concededOf := fun (m : MatchRecord) => if isTeam1 then m.team2Score else m.team1Score
  let sum := ((s.h2h.map concededOf).sum + (own.map concededOf).sum : ℤ)
  let count := s.h2h.length + own.length
  if count > 0 then (sum : ℝ) / (count : ℝ) else 1.5

/-- `calculateAttackStrength(teamName, isTeam1)`. -/
noncomputable def calculateAttackStrength (s : Store) (isTeam1 : Bool) : ℝ :=
  let avgScored := calculateOverallTeamAverage s isTeam1
  let oppAvgConceded :=
    if isTeam1 then
      (if s.team1.length > 0 then calculateCategoryAverage s.team1 (fun m => m.team2Score)
       else 1.0)
    else
      (if s.team2.length > 0 then calculateCategoryAverage s.team2 (fun m => m.team1Score)
       else 1.0)
  let leagueAvgScored : ℝ := 1.3
  (avgScored / leagueAvgScored) * (leagueAvgScored / (max 0.5 oppAvgConceded + 0.2))

/-- `calculateDefenseStrength(teamName, isTeam1)`. -/
noncomputable def calculateDefenseStrength (s : Store) (isTeam1 : Bool) : ℝ :=
  let avgConceded := calculateTeamAverageConceded s isTeam1
  let oppAvgScored :=
    if isTeam1 then
      (if s.team1.length > 0 then calculateCategoryAverage s.team1 (fun m => m.team2Score)
       else 1.0)
    else
      (if s.team2.length > 0 then calculateCategoryAverage s.team2 (fun m => m.team1Score)
       else 1.0)
  let leagueAvgConceded : ℝ := 1.3
  (avgConceded / leagueAvgConceded) * (leagueAvgConceded / (max 0.5 oppAvgScored + 0.2))

/-- The `for (let i = 1; ...)` loop of the result-consistency computation:
recency-weighted count of result-to-result changes (weight `0.9^(i-1)`) and
the total weight, over adjacent pairs of the given sequence. -/
noncomputable def weightedResultChanges : List ℤ → ℕ → ℝ × ℝ
  | a :: b :: rest, i =>
      let w : ℝ := (0.9 : ℝ) ^ i
      let rec2 := weightedResultChanges (b :: rest) (i + 1)
      ((if a ≠ b then w else 0) + rec2.1, w + rec2.2)
  | _, _ => (0, 0)

/-- `calculateTeamConsistency(teamName, isTeam1)`: 0.35×score consistency +
0.65×recency-weighted result consistency; 0.5 when fewer than 3 samples. -/
noncomputable def calculateTeamConsistency (s : Store) (cfg : Config) (isTeam1 : Bool) : ℝ :=
  let teamMatches := if isTeam1 then s.h2h ++ s.team1 else s.h2h ++ s.team2
  let winStr := (if isTeam1 then cfg.team1Name else cfg.team2Name) ++ " Wins"
  let scores := teamMatches.map fun m => if isTeam1 then m.team1Score else m.team2Score
  let results : List ℤ := teamMatches.map fun m =>
    if m.outcome = winStr then 1 else if m.outcome = "Draw" then 0 else -1
  if scores.length < 3 then 0.5
  else
    let mean := ((scores.map fun v => (v : ℝ)).sum) / (scores.length : ℝ)
    let variance := ((scores.map fun v => ((v : ℝ) - mean) ^ 2).sum) / (scores.length : ℝ)
    let stdDev := Real.sqrt variance
    let coeffVariation := if mean > 0 then stdDev / mean else 1
    let resultConsistency :=
      if results.length ≥ 3 then
        let sortedResults := results.reverse
        let wc := weightedResultChanges sortedResults 0
        if wc.2 > 0 then 1 - wc.1 / wc.2 else 0.5
      else 1.0
    let scoreConsistency := max 0 (1 - coeffVariation / 2)
    0.35 * scoreConsistency + 0.65 * resultConsistency

/-- The per-team match view (timestamp, own score, opponent score, outcome)
used by `calculateMomentumIndex`. -/
structure TeamMatch where
  timestamp : ℤ
  score : ℤ
  opponentScore : ℤ
  outcome : String
deriving DecidableEq, Repr

/-- `calculateMomentumIndex(teamName, isTeam1)`: weighted scoring trend
combined with recent-vs-overall differentials, doubled and clamped to
`[-1, 1]`; 0 with fewer than 3 matches. -/
noncomputable def calculateMomentumIndex (s : Store) (cfg : Config) (isTeam1 : Bool) : ℝ :=
  let toTM := fun (m : MatchRecord) =>
    if isTeam1 then
      TeamMatch.mk m.timestamp m.team1Score m.team2Score m.outcome
    else
      TeamMatch.mk m.timestamp m.team2Score m.team1Score m.outcome
  let combined := (s.h2h ++ (if isTeam1 then s.team1 else s.team2)).map toTM
  let teamMatches :=
    List.mergeSort combined fun a b => decide (a.timestamp ≤ b.timestamp)
  if teamMatches.length < 3 then 0
  else
    let n := teamMatches.length
    let weightOf := fun (i : ℕ) => (1.8 : ℝ) ^ i / (1.8 : ℝ) ^ (n - 1)
    let scoringTrend :=
      ((teamMatches.enum.map fun p => (p.2.score : ℝ) * weightOf p.1).sum) /
        (((List.range n).map weightOf).sum)
    let last3 := teamMatches.drop (n - 3)
    let recentAvgScore := ((last3.map fun m => (m.score : ℝ)).sum) / ((min 3 n : ℕ) : ℝ)
    let overallAvgScore := ((teamMatches.map fun m => (m.score : ℝ)).sum) / (n : ℝ)
    let recentGoalDiff :=
      ((last3.map fun m => ((m.score - m.opponentScore : ℤ) : ℝ)).sum) / ((min 3 n : ℕ) : ℝ)
    let overallGoalDiff :=
      ((teamMatches.map fun m => ((m.score - m.opponentScore : ℤ) : ℝ)).sum) / (n : ℝ)
    let teamWinString := (if isTeam1 then cfg.team1Name else cfg.team2Name) ++ " Wins"
    let recentWinPct :=
      ((last3.filter fun m => m.outcome == teamWinString).length : ℝ) / ((min 3 n : ℕ) : ℝ)
    let overallWinPct :=
      ((teamMatches.filter fun m => m.outcome == teamWinString).length : ℝ) / (n : ℝ)
    let scoringMomentum := (recentAvgScore - overallAvgScore) / max 0.5 overallAvgScore
    let goalDiffMomentum := recentGoalDiff - overallGoalDiff
    let winMomentum := recentWinPct - overallWinPct
    let _ := scoringTrend
    let momentum := scoringMomentum * 0.25 + goalDiffMomentum * 0.25 + winMomentum * 0.5
    max (-1) (min 1 (momentum * 2))

/-- `calculateHomeAdvantage(teamName, isTeam1)`: the team's own series is
treated as home matches, H2H as away; 1.0 when the own series is empty. -/
noncomputable def calculateHomeAdvantage (s : Store) (cfg : Config) (isTeam1 : Bool) : ℝ :=
  let homeMatches := if isTeam1 then s.team1 else s.team2
  let awayMatches := s.h2h
  if homeMatches.length = 0 then 1.0
  else
    let teamWinString := (if isTeam1 then cfg.team1Name else cfg.team2Name) ++ " Wins"
    let homeWinPct :=
      ((homeMatches.filter fun m => m.outcome == teamWinString).length : ℝ) /
        (homeMatches.length : ℝ)
    let awayWinPct :=
      if awayMatches.length > 0 then
        ((awayMatches.filter fun m => m.outcome == teamWinString).length : ℝ) /
          (awayMatches.length : ℝ)
      else 0.3
    let goalDiffOf := fun (m : MatchRecord) =>
      if isTeam1 then m.team1Score - m.team2Score else m.team2Score - m.team1Score
    let homeGoalDiff :=
      ((homeMatches.map fun m => ((goalDiffOf m : ℤ) : ℝ)).sum) / (homeMatches.length : ℝ)
    let awayGoalDiff :=
      if awayMatches.length > 0 then
        ((awayMatches.map fun m => ((goalDiffOf m : ℤ) : ℝ)).sum) / (awayMatches.length : ℝ)
      else -0.5
    let winRatioAdvantage :=
      if homeWinPct > 0 ∧ awayWinPct > 0 then homeWinPct / awayWinPct else 1.0
    let goalDiffAdvantage := homeGoalDiff - awayGoalDiff
    let combinedAdvantage :=
      winRatioAdvantage * 0.7 + (min 2 (max 0 (goalDiffAdvantage + 1))) * 0.3
    max 0.2 (min 2.0 combinedAdvantage)

/-- `calculateMatchImportancePerformance(teamName, isTeam1)`: 0.6×consistency
+ 0.4×average per-match performance proxy, clamped to `[0.5, 1.5]`; 1.0 with
fewer than 2 matches. -/
noncomputable def calculateMatchImportancePerformance (s : Store) (cfg : Config)
    (isTeam1 : Bool) : ℝ :=
  let teamMatches := if isTeam1 then s.h2h ++ s.team1 else s.h2h ++ s.team2
  if teamMatches.length < 2 then 1.0
  else
    let consistency := calculateTeamConsistency s cfg isTeam1
    let perf := fun (m : MatchRecord) =>
      let teamScore := if isTeam1 then m.team1Score else m.team2Score
      let opponentScore := if isTeam1 then m.team2Score else m.team1Score
      let goalDiff := teamScore - opponentScore
      if goalDiff > 0 then (1.2 : ℝ) else if goalDiff = 0 then 1.0 else 0.8
    let matchCount := teamMatches.length
    let avgPerformance :=
      if matchCount > 0 then ((teamMatches.map perf).sum) / (matchCount : ℝ) else 1.0
    let importancePerformance := consistency * 0.6 + avgPerformance * 0.4
    max 0.5 (min 1.5 importancePerformance)

/-- The exponential-decay (`0.8^index`) weighted average helper of
`calculateScoringTrends`. -/
noncomputable def calculateWeightedAverage (ms : List MatchRecord)
    (valueFn : MatchRecord → ℝ) : ℝ :=
  let weightedSum := (ms.enum.map fun p => valueFn p.2 * (0.8 : ℝ) ^ p.1).sum
  let totalWeight := ((List.range ms.length).map fun i => (0.8 : ℝ) ^ i).sum
  if totalWeight > 0 then weightedSum / totalWeight else 0

/-- `calculateScoringTrends()`: recent (last-5, decay-weighted) versus
historical scoring, overall and per team; all zero with fewer than 3 matches. -/
noncomputable def calculateScoringTrends (s : Store) : ScoringTrends :=
  let allMatches := sortNewestFirst (s.h2h ++ s.team1 ++ s.team2)
  if allMatches.length < 3 then { team1Trend := 0, team2Trend := 0, overallTrend := 0 }
  else
    let recentMatches := allMatches.take (min 5 allMatches.length)
    let historicalMatches := allMatches.drop (min 5 allMatches.length)
    let recentAvgTotal := calculateWeightedAverage recentMatches fun m => (m.totalScore : ℝ)
    let historicalAvgTotal :=
      if historicalMatches.length > 0 then
        ((historicalMatches.map fun m => (m.totalScore : ℝ)).sum) /
          (historicalMatches.length : ℝ)
      else 2.5
    let overallTrend := recentAvgTotal - historicalAvgTotal
    let team1Matches := sortNewestFirst (s.h2h ++ s.team1)
    let team2Matches := sortNewestFirst (s.h2h ++ s.team2)
    let team1RecentAvg :=
      if team1Matches.length > 0 then
        calculateWeightedAverage (team1Matches.take (min 5 team1Matches.length))
          (fun m => (m.team1Score : ℝ))
      else 1.0
    let team1HistoricalAvg :=
      if team1Matches.length > 0 ∧ team1Matches.length > 5 then
        (((team1Matches.drop 5).map fun m => (m.team1Score : ℝ)).sum) /
          ((team1Matches.length : ℝ) - 5)
      else 1.0
    let team2Prop := fun (m : MatchRecord) =>
      if m.category = Category.h2h then (m.team2Score : ℝ) else (m.team1Score : ℝ)
    let team2RecentAvg :=
      if team2Matches.length > 0 then
        calculateWeightedAverage (team2Matches.take (min 5 team2Matches.length)) team2Prop
      else 1.0
    let team2HistoricalAvg :=
      if team2Matches.length > 0 ∧ team2Matches.length > 5 then
        (((team2Matches.drop 5).map team2Prop).sum) / ((team2Matches.length : ℝ) - 5)
      else 1.0
    { team1Trend := team1RecentAvg - team1HistoricalAvg
      team2Trend := team2RecentAvg - team2HistoricalAvg
      overallTrend := overallTrend }

/-- The team2 clean-sheet check of `calculateCleanSheetStats`: as in the
source, both category branches test `match.team1Score === 0`. -/
def team2CleanSheetCheck (m : MatchRecord) : Bool :=
  if m.category = Category.h2h then m.team1Score == 0 else m.team1Score == 0

/-- `applyRecencyWeight(matches, checkFn)`: plain count and recency-weighted
(decay `0.9^index`, newest first) percentage of matches passing the check. -/
noncomputable def applyRecencyWeight (ms : List MatchRecord)
    (checkFn : MatchRecord → Bool) : ℕ × ℝ :=
  let sortedMatches := sortNewestFirst ms
  let weightedCount :=
    (sortedMatches.enum.map fun p => if checkFn p.2 then (0.9 : ℝ) ^ p.1 else 0).sum
  let totalWeight := ((List.range sortedMatches.length).map fun i => (0.9 : ℝ) ^ i).sum
  ((sortedMatches.filter checkFn).length,
    if totalWeight > 0 then weightedCount / totalWeight * 100 else 0)

/-- `calculateCleanSheetStats()`. -/
noncomputable def calculateCleanSheetStats (s : Store) : CleanSheetStats :=
  let team1Stats := applyRecencyWeight (s.h2h ++ s.team1) fun m => m.team2Score == 0
  let team2Stats := applyRecencyWeight (s.h2h ++ s.team2) team2CleanSheetCheck
  { team1CleanSheetPct := team1Stats.2
    team2CleanSheetPct := team2Stats.2
    team1CleanSheets := team1Stats.1
    team2CleanSheets := team2Stats.1
    team1Matches := s.h2h.length + s.team1.length
    team2Matches := s.h2h.length + s.team2.length }

/-- `calculateH2HAdvantage()`: 0.3×win-count ratio + 0.7×exponential-decay
(`e^(-0.2·index)`, newest first) weighted win/loss sum; 0 with no H2H data. -/
noncomputable def calculateH2HAdvantage (s : Store) (cfg : Config) : ℝ :=
  if s.h2h.length = 0 then 0
  else
    let team1Wins := (s.h2h.filter fun m => m.outcome == cfg.team1Name ++ " Wins").length
    let team2Wins := (s.h2h.filter fun m => m.outcome == cfg.team2Name ++ " Wins").length
    let simpleAdvantage := ((team1Wins : ℝ) - (team2Wins : ℝ)) / (s.h2h.length : ℝ)
    let sortedMatches := sortNewestFirst s.h2h
    let weightedAdvantage :=
      (sortedMatches.enum.map fun p =>
        if p.2.outcome == cfg.team1Name ++ " Wins" then Real.exp (-0.2 * (p.1 : ℝ))
        else if p.2.outcome == cfg.team2Name ++ " Wins" then -Real.exp (-0.2 * (p.1 : ℝ))
        else 0).sum
    let totalWeight :=
      ((List.range sortedMatches.length).map fun i => Real.exp (-0.2 * (i : ℝ))).sum
    let normalizedWeightedAdvantage :=
      if totalWeight > 0 then weightedAdvantage / totalWeight else 0
    simpleAdvantage * 0.3 + normalizedWeightedAdvantage * 0.7

/-- The per-match view (win/draw/lose flags, scores) of `calculateRecentForm`. -/
structure FormMatch where
  win : Bool
  draw : Bool
  lose : Bool
  timestamp : ℤ
  score : ℤ
  opponentScore : ℤ
deriving DecidableEq, Repr

/-- The per-match performance score of `calculateRecentForm`: win = 3 plus
margin bonus (≤ 0.7, margin×0.15) plus clean-sheet bonus 0.4; draw = 1 plus
0.3 for combined score ≥ 4; loss = 0 plus 0.4 for scoring ≥ 2 plus 0.3 for a
one-goal loss. -/
noncomputable def formMatchScore (m : FormMatch) : ℝ :=
  if m.win then
    3 + min 0.7 (((m.score - m.opponentScore : ℤ) : ℝ) * 0.15) +
      (if m.opponentScore = 0 then 0.4 else 0)
  else if m.draw then
    1 + (if m.score + m.opponentScore ≥ 4 then 0.3 else 0)
  else
    (if m.score ≥ 2 then (0.4 : ℝ) else 0) +
      (if m.opponentScore - m.score = 1 then 0.3 else 0)

/-- `calculateRecentForm(teamName, isTeam1)`: the last ≤ 5 matches, newest
first, weighted `0.75^index`, normalized by `totalWeight × 4.0`; 0.5 with no
matches. -/
noncomputable def calculateRecentForm (s : Store) (cfg : Config) (isTeam1 : Bool) : ℝ :=
  let h2hView := s.h2h.map fun m =>
    if isTeam1 then
      FormMatch.mk (m.outcome == cfg.team1Name ++ " Wins") (m.outcome == "Draw")
        (m.outcome == cfg.team2Name ++ " Wins") m.timestamp m.team1Score m.team2Score
    else
      FormMatch.mk (m.outcome == cfg.team2Name ++ " Wins") (m.outcome == "Draw")
        (m.outcome == cfg.team1Name ++ " Wins") m.timestamp m.team2Score m.team1Score
  let ownView := (if isTeam1 then s.team1 else s.team2).map fun m =>
    if isTeam1 then
      FormMatch.mk (m.outcome == cfg.team1Name ++ " Wins") (m.outcome == "Draw")
        (m.outcome == "Opponent Wins") m.timestamp m.team1Score m.team2Score
    else
      FormMatch.mk (m.outcome == cfg.team2Name ++ " Wins") (m.outcome == "Draw")
        (m.outcome == "Opponent Wins") m.timestamp m.team2Score m.team1Score
  let sorted :=
    List.mergeSort (h2hView ++ ownView) fun a b => decide (b.timestamp ≤ a.timestamp)
  if sorted.length = 0 then 0.5
  else
    let teamMatches := sorted.take (min 5 sorted.length)
    let formScore :=
      (teamMatches.enum.map fun p => formMatchScore p.2 * (0.75 : ℝ) ^ p.1).sum
    let totalWeight := ((List.range teamMatches.length).map fun i => (0.75 : ℝ) ^ i).sum
    formScore / (totalWeight * 4.0)

/-! ### Feature aggregation and the analysis pipeline -/

/-- `prepareMatchFeatures()`: bundles every extractor output plus the
configuration into one feature snapshot. -/
noncomputable def prepareMatchFeatures (s : Store) (cfg : Config) : FeatureSnapshot :=
  { basicStats :=
      { team1AvgScore := calculateOverallTeamAverage s true
        team2AvgScore := calculateOverallTeamAverage s false
        team1AvgConceded := calculateTeamAverageConceded s true
        team2AvgConceded := calculateTeamAverageConceded s false
        h2hAdvantage := calculateH2HAdvantage s cfg
        locationFactor :=
          if cfg.matchLocation = "home" then 1
          else if cfg.matchLocation = "away" then -1 else 0
        rankingDiff :=
          if cfg.team1Ranking ≠ 0 ∧ cfg.team2Ranking ≠ 0 then
            ((cfg.team1Ranking - cfg.team2Ranking : ℤ) : ℝ)
          else 0
        matchImportance := (cfg.matchImportance : ℝ)
        totalLine := (cfg.totalLine : ℝ)
        pointSpread := (cfg.pointSpread : ℝ)
        spreadDirection := if cfg.spreadDirection = "team1" then 1 else -1 }
    advancedStats :=
      { team1RecentForm := calculateRecentForm s cfg true
        team2RecentForm := calculateRecentForm s cfg false
        team1DefenseStrength := calculateDefenseStrength s true
        team2DefenseStrength := calculateDefenseStrength s false
        team1AttackStrength := calculateAttackStrength s true
        team2AttackStrength := calculateAttackStrength s false
        team1Consistency := calculateTeamConsistency s cfg true
        team2Consistency := calculateTeamConsistency s cfg false
        team1MomentumIndex := calculateMomentumIndex s cfg true
        team2MomentumIndex := calculateMomentumIndex s cfg false
        team1HomeAdvantage := calculateHomeAdvantage s cfg true
        team2HomeAdvantage := calculateHomeAdvantage s cfg false
        team1MatchImportancePerformance := calculateMatchImportancePerformance s cfg true
        team2MatchImportancePerformance := calculateMatchImportancePerformance s cfg false }
    trends :=
      { scoring := calculateScoringTrends s
        cleanSheets := calculateCleanSheetStats s }
    dataQuality :=
      { totalMatches := getTotalMatchCount s
        team1Matches := s.team1.length
        team2Matches := s.team2.length
        h2hMatches := s.h2h.length
        dataSufficiency := decide (getTotalMatchCount s ≥ MIN_MATCHES_FOR_GOOD_ANALYSIS)
        dataExcellence :=
          decide (getTotalMatchCount s ≥ MIN_MATCHES_FOR_EXCELLENT_ANALYSIS ∧
            s.h2h.length ≥ MIN_H2H_MATCHES) } }

/-- `calculateModelV1ProjectedTotal(features)` (reads `matchData.h2h` for the
H2H blend, hence the extra store argument). -/
noncomputable def calculateModelV1ProjectedTotal (f : FeatureSnapshot) (s : Store) : ℝ :=
  let b := f.basicStats
  let a := f.advancedStats
  let baseTotal :=
    (b.team1AvgScore + b.team2AvgScore + b.team1AvgConceded + b.team2AvgConceded) / 2
  let withH2H :=
    if f.dataQuality.h2hMatches ≥ MIN_H2H_MATCHES then
      let h2hAvgTotal :=
        ((s.h2h.map fun m => (m.totalScore : ℝ)).sum) / (f.dataQuality.h2hMatches : ℝ)
      let h2hWeight := min 0.5 ((f.dataQuality.h2hMatches : ℝ) * 0.08)
      baseTotal * (1 - h2hWeight) + h2hAvgTotal * h2hWeight
    else baseTotal
  let withForm := withH2H + ((a.team1RecentForm + a.team2RecentForm) - 1) * 0.5
  let withDefense :=
    withForm + (-(((1 - a.team1DefenseStrength) + (1 - a.team2DefenseStrength)) * 0.5))
  let withAttack :=
    withDefense + (a.team1AttackStrength + a.team2AttackStrength - 2) * 0.5
  let withImportance :=
    if b.matchImportance < 1 then withAttack + (1 - b.matchImportance) * 0.6
    else if b.matchImportance > 1.3 then withAttack - (b.matchImportance - 1.3) * 0.4
    else withAttack
  let withLocation :=
    if b.locationFactor ≠ 0 then withImportance + |b.locationFactor| * 0.15
    else withImportance
  let withConsistency :=
    withLocation + ((1 - a.team1Consistency) + (1 - a.team2Consistency)) * 0.4
  let withTrend :=
    if f.trends.scoring.overallTrend ≠ 0 then
      withConsistency + f.trends.scoring.overallTrend * 0.3
    else withConsistency
  let withQuality :=
    if !f.dataQuality.dataSufficiency then withTrend * (1 - 0.4) + 2.5 * 0.4
    else withTrend
  max 0.5 withQuality

/-- `calculateModelV1ProjectedMargin(features)` (reads `matchData.h2h` for the
H2H blend, hence the extra store argument). -/
noncomputable def calculateModelV1ProjectedMargin (f : FeatureSnapshot) (s : Store) : ℝ :=
  let b := f.basicStats
  let a := f.advancedStats
  let baseMargin :=
    (b.team1AvgScore - b.team2AvgConceded) - (b.team2AvgScore - b.team1AvgConceded)
  let withH2H :=
    if f.dataQuality.h2hMatches ≥ MIN_H2H_MATCHES then
      let h2hAvgMargin :=
        ((s.h2h.map fun m => ((m.team1Score - m.team2Score : ℤ) : ℝ)).sum) /
          (f.dataQuality.h2hMatches : ℝ)
      let h2hWeight := min 0.5 ((f.dataQuality.h2hMatches : ℝ) * 0.08)
      baseMargin * (1 - h2hWeight) + h2hAvgMargin * h2hWeight
    else baseMargin + b.h2hAdvantage * 0.5
  let withForm := withH2H + (a.team1RecentForm - a.team2RecentForm) * 0.8
  let withStrength :=
    withForm + ((a.team1AttackStrength - a.team2DefenseStrength) -
      (a.team2AttackStrength - a.team1DefenseStrength)) * 0.5
  let withMomentum :=
    withStrength + (a.team1MomentumIndex - a.team2MomentumIndex) * 0.5
  let withLocation :=
    if b.locationFactor ≠ 0 then withMomentum + b.locationFactor * 0.4 else withMomentum
  let withRanking :=
    if b.rankingDiff ≠ 0 then
      withLocation + (-Real.sign b.rankingDiff * min 1 (|b.rankingDiff| / 20)) * 0.3
    else withLocation
  let withImportance :=
    if b.matchImportance > 1 then
      if withRanking > 0 then withRanking + (b.matchImportance - 1) * 0.3
      else if withRanking < 0 then withRanking - (b.matchImportance - 1) * 0.3
      else withRanking
    else withRanking
  if !f.dataQuality.dataSufficiency then withImportance * (1 - 0.5) else withImportance

/-- The `lastAnalysisResults` record stored by `performAnalysis()`. -/
structure AnalysisResult where
  probabilities : Probabilities
  projectedTotal : ℝ
  projectedMargin : ℝ
  team1Name : String
  team2Name : String
  totalLine : ℚ
  pointSpread : ℚ
  spreadDirection : String
  matchImportance : ℚ
  matchLocation : String
  features : FeatureSnapshot

/-- The computational core of `performAnalysis()`: features, probabilities,
projections and the consistency reconciliation, as a pure function of the
record store and the configuration. -/
noncomputable def performAnalysisCore (s : Store) (cfg : Config) : AnalysisResult :=
  let features := prepareMatchFeatures s cfg
  let probabilities := calculateModelV1WinProbabilities features
  let projectedTotal := calculateModelV1ProjectedTotal features s
  let projectedMargin := calculateModelV1ProjectedMargin features s
  let adjusted := ensurePredictionConsistency probabilities projectedMargin
  { probabilities := adjusted.1
    projectedTotal := projectedTotal
    projectedMargin := adjusted.2
    team1Name := cfg.team1Name
    team2Name := cfg.team2Name
    totalLine := cfg.totalLine
    pointSpread := cfg.pointSpread
    spreadDirection := cfg.spreadDirection
    matchImportance := cfg.matchImportance
    matchLocation := cfg.matchLocation
    features := features }

/-- The analyze-button handler: `validateInputs()` gates the pipeline; then
`processAllMatchData()` refreshes the per-record line flags and
`performAnalysis()` runs (its own empty-data guard included). -/
noncomputable def analyzeClick (s : Store) (cfg : Config) (userConfirms : Bool) :
    Option AnalysisResult :=
  if validateInputs s cfg userConfirms then
    if getTotalMatchCount s = 0 then none
    else some (performAnalysisCore (updateSpreadCoverCalculations cfg s) cfg)
  else none

/-! ### Concrete fixtures used by witnesses and counterexamples -/

/-- The store before any ingestion. -/
def emptyStore : Store := { h2h := [], team1 := [], team2 := [] }

/-- A configuration matching the repository's sample data: rankings 4 and 2,
no betting lines, neutral location. -/
def exampleConfig : Config :=
  { team1Name := "Liverpool"
    team2Name := "Manchester City"
    team1Ranking := 4
    team2Ranking := 2
    matchImportance := 1
    matchLocation := "neutral"
    totalLine := 0
    pointSpread := 0
    spreadDirection := "team1" }

/-- A feature snapshot with sufficient data, in-range extractor values
(strengths 0.7, forms in `[0, 1]`, momenta in `[-1, 1]`) and a strongly
team2-leaning advantage; it drives the pre-floor team1 probability below 5
while the draw probability sits at the 45 clamp. -/
noncomputable def cxFeatures : FeatureSnapshot :=
  { basicStats :=
      { team1AvgScore := 0
        team2AvgScore := 0
        team1AvgConceded := 1
        team2AvgConceded := 1
        h2hAdvantage := 0
        locationFactor := 0
        rankingDiff := 0
        matchImportance := 1
        totalLine := 0
        pointSpread := 0
        spreadDirection := 1 }
    advancedStats :=
      { team1RecentForm := 0
        team2RecentForm := 1
        team1DefenseStrength := 0.7
        team2DefenseStrength := 0.7
        team1AttackStrength := 0.7
        team2AttackStrength := 0.7
        team1Consistency := 0.5
        team2Consistency := 0.5
        team1MomentumIndex := -1
        team2MomentumIndex := 1
        team1HomeAdvantage := 1
        team2HomeAdvantage := 1
        team1MatchImportancePerformance := 1
        team2MatchImportancePerformance := 1 }
    trends :=
      { scoring := { team1Trend := 0, team2Trend := 0, overallTrend := 0 }
        cleanSheets :=
          { team1CleanSheetPct := 0, team2CleanSheetPct := 0, team1CleanSheets := 0
            team2CleanSheets := 0, team1Matches := 0, team2Matches := 0 } }
    dataQuality :=
      { totalMatches := 10
        team1Matches := 3
        team2Matches := 3
        h2hMatches := 4
        dataSufficiency := true
        dataExcellence := false } }

/-! ## Theorems -/

theorem Store.get_set_self (s : Store) (c : Category) (l : List MatchRecord) :
    (s.set c l).get c = l := by
  cases c <;> rfl

/-- C5: `Analyze()` is rejected before the pipeline runs whenever the total
match count is 0, or either team name trims to empty, or the trimmed team
names coincide. -/
theorem C5_analyze_rejected (s : Store) (cfg : Config) (userConfirms : Bool)
    (h : getTotalMatchCount s = 0 ∨ cfg.team1Name.trim = "" ∨ cfg.team2Name.trim = "" ∨
      cfg.team1Name.trim = cfg.team2Name.trim) :
    analyzeClick s cfg userConfirms = none := by
  have hv : validateInputs s cfg userConfirms = false := by
    unfold validateInputs
    split_ifs with h0 h1 h2 h3 <;> try rfl
    all_goals
      exact absurd h (by push_neg; exact ⟨h0, fun hh => h1 (Or.inl hh),
        fun hh => h1 (Or.inr hh), h2⟩)
  unfold analyzeClick
  simp [hv]

/-- C5 witness: with rankings 4 and 2 but no scores entered, `Analyze()` is
rejected (total match count 0). -/
theorem C5_witness : analyzeClick emptyStore exampleConfig true = none :=
  C5_analyze_rejected emptyStore exampleConfig true (Or.inl rfl)

/-- C8: the team2 clean-sheet check of `calculateCleanSheetStats` tests
`team1Score === 0` in both category branches, and on records built by
ingestion for the `h2h` and `team2` categories that shared condition holds
exactly when team2's opponent scored 0 (for `h2h` the opponent's raw score is
`score1`; for `team2` the opponent's raw score is `score2`, which ingestion
stores in the `team1Score` slot). -/
theorem C8_team2_clean_sheet_condition :
    (∀ m : MatchRecord, team2CleanSheetCheck m = (m.team1Score == 0)) ∧
      ∀ (cfg : Config) (n : ℕ) (s1 s2 ts : ℤ),
        team2CleanSheetCheck (mkMatchRecord cfg Category.h2h n s1 s2 ts) = (s1 == 0) ∧
          team2CleanSheetCheck (mkMatchRecord cfg Category.team2 n s1 s2 ts) = (s2 == 0) := by
  refine ⟨fun m => ?_, fun cfg n s1 s2 ts => ⟨?_, ?_⟩⟩
  · unfold team2CleanSheetCheck
    exact ite_self _
  · simp [team2CleanSheetCheck, mkMatchRecord]
  · simp [team2CleanSheetCheck, mkMatchRecord]

/-- C9: the analysis pipeline is a pure function of the record store, the
configuration and the confirm-dialog answer; two runs on equal inputs return
equal results (the analysis path reads no clock and no other state). -/
theorem C9_analysis_deterministic (s1 s2 : Store) (c1 c2 : Config) (u1 u2 : Bool)
    (hs : s1 = s2) (hc : c1 = c2) (hu : u1 = u2) :
    analyzeClick s1 c1 u1 = analyzeClick s2 c2 u2 := by
  subst hs; subst hc; subst hu; rfl

/-- C9 witness: two identical calls on the sample configuration agree. -/
theorem C9_witness :
    analyzeClick emptyStore exampleConfig true = analyzeClick emptyStore exampleConfig true :=
  C9_analysis_deterministic emptyStore emptyStore exampleConfig exampleConfig true true
    rfl rfl rfl

theorem processMatchScore_get_length (cfg : Config) (cat : Category) (n : ℕ)
    (a b t : ℤ) (st : Store) :
    ((processMatchScore cfg cat n a b t st).get cat).length = (st.get cat).length + 1 := by
  unfold processMatchScore
  rw [Store.get_set_self, List.length_mergeSort, List.length_append, List.length_singleton]

theorem processMatchScore_get_congr (cfg : Config) (cat : Category) (n : ℕ)
    (a b t : ℤ) (st st2 : Store) (h : st.get cat = st2.get cat) :
    (processMatchScore cfg cat n a b t st).get cat =
      (processMatchScore cfg cat n a b t st2).get cat := by
  unfold processMatchScore
  rw [Store.get_set_self, Store.get_set_self, h]

theorem processMatchScore_get_mem (cfg : Config) (cat : Category) (n : ℕ)
    (a b t : ℤ) (st : Store) (r : MatchRecord)
    (hr : r ∈ (processMatchScore cfg cat n a b t st).get cat) :
    r ∈ st.get cat ∨ r = mkMatchRecord cfg cat n a b t := by
  unfold processMatchScore at hr
  rw [Store.get_set_self, List.mem_mergeSort, List.mem_append, List.mem_singleton] at hr
  exact hr

theorem mkMatchRecord_totalScore (cfg : Config) (cat : Category) (n : ℕ) (a b t : ℤ) :
    (mkMatchRecord cfg cat n a b t).totalScore =
      (mkMatchRecord cfg cat n a b t).team1Score + (mkMatchRecord cfg cat n a b t).team2Score := by
  cases cat <;> (simp [mkMatchRecord]; try ring)

theorem ingestFold_length (cfg : Config) (cat : Category) (f1 f2 ts : ℕ → ℤ) :
    ∀ (L : List ℕ) (st : Store),
      (((L.foldl (fun st2 i =>
          processMatchScore cfg cat (i + 1) (f1 i) (f2 i) (ts i) st2) st).get cat)).length =
        (st.get cat).length + L.length := by
  intro L
  induction L with
  | nil => intro st; simp
  | cons a tl ih =>
      intro st
      rw [List.foldl_cons, ih, processMatchScore_get_length, List.length_cons]
      omega

theorem ingestFold_congr (cfg : Config) (cat : Category) (f1 f2 ts : ℕ → ℤ) :
    ∀ (L : List ℕ) (st st2 : Store), st.get cat = st2.get cat →
      ((L.foldl (fun st3 i =>
          processMatchScore cfg cat (i + 1) (f1 i) (f2 i) (ts i) st3) st).get cat) =
        ((L.foldl (fun st3 i =>
          processMatchScore cfg cat (i + 1) (f1 i) (f2 i) (ts i) st3) st2).get cat) := by
  intro L
  induction L with
  | nil => intro st st2 h; simpa using h
  | cons a tl ih =>
      intro st st2 h
      rw [List.foldl_cons, List.foldl_cons]
      exact ih _ _ (processMatchScore_get_congr cfg cat _ _ _ _ _ _ h)

theorem ingestFold_totalScore (cfg : Config) (cat : Category) (f1 f2 ts : ℕ → ℤ) :
    ∀ (L : List ℕ) (st : Store),
      (∀ r ∈ st.get cat, r.totalScore = r.team1Score + r.team2Score) →
      ∀ r ∈ (L.foldl (fun st2 i =>
          processMatchScore cfg cat (i + 1) (f1 i) (f2 i) (ts i) st2) st).get cat,
        r.totalScore = r.team1Score + r.team2Score := by
  intro L
  induction L with
  | nil => intro st h; simpa using h
  | cons a tl ih =>
      intro st h
      rw [List.foldl_cons]
      refine ih _ fun r hr => ?_
      rcases processMatchScore_get_mem cfg cat _ _ _ _ _ r hr with hmem | heq
      · exact h r hmem
      · rw [heq]; exact mkMatchRecord_totalScore cfg cat _ _ _ _

/-- C6: for valid score arrays, ingestion stores exactly `min(len1, len2)`
records in the category, the resulting sequence does not depend on the store's
prior contents (the category is replaced), and every stored record satisfies
`totalScore = team1Score + team2Score`. -/
theorem C6_ingest_truncates_replaces_totals (cfg : Config) (cat : Category)
    (s s2 : Store) (scores1 scores2 : List ℤ) (now : ℤ)
    (h : validateScores scores1 scores2 = true) :
    ((handleAdd cfg cat s scores1 scores2 now).get cat).length =
        min scores1.length scores2.length ∧
      (handleAdd cfg cat s scores1 scores2 now).get cat =
        (handleAdd cfg cat s2 scores1 scores2 now).get cat ∧
      ∀ r ∈ (handleAdd cfg cat s scores1 scores2 now).get cat,
        r.totalScore = r.team1Score + r.team2Score := by
  unfold handleAdd
  rw [if_pos h, if_pos h]
  refine ⟨?_, ?_, ?_⟩
  · rw [ingestFold_length, Store.get_set_self, List.length_range]
    simp
  · exact ingestFold_congr cfg cat _ _ _ _ _ _
      (by rw [Store.get_set_self, Store.get_set_self])
  · exact ingestFold_totalScore cfg cat _ _ _ _ _
      (by rw [Store.get_set_self]; intro r hr; cases hr)

/-- C6 witness: ingesting the five sample head-to-head score pairs stores
exactly five records. -/
theorem C6_witness :
    ((handleAdd exampleConfig Category.h2h emptyStore [1, 2, 1, 2, 0] [1, 2, 0, 1, 1] 0).get
        Category.h2h).length =
      min ([(1 : ℤ), 2, 1, 2, 0].length) ([(1 : ℤ), 2, 0, 1, 1].length) :=
  (C6_ingest_truncates_replaces_totals exampleConfig Category.h2h emptyStore emptyStore
    [1, 2, 1, 2, 0] [1, 2, 0, 1, 1] 0 (by decide)).1

theorem predictedWinnerOf_draw (p : Probabilities)
    (h1 : p.drawProb > p.team1WinProb) (h2 : p.drawProb > p.team2WinProb) :
    predictedWinnerOf p = Winner.draw := by
  unfold predictedWinnerOf
  rw [max_eq_right h2.le, max_eq_right h1.le, if_neg (ne_of_lt h1), if_neg (ne_of_lt h2)]

/-- C2: if draw is the strict probability maximum the reconciled margin
satisfies `|adjusted| ≤ 0.2 × |original|`; otherwise, whenever the
margin-implied winner disagrees with the probability-implied winner, the
reconciled margin has magnitude `max(0.25, 0.8 × |original|)` and is positive
exactly when the probability-implied winner is team1. -/
theorem C2_reconciliation (p : Probabilities) (m : ℝ) :
    (p.drawProb > p.team1WinProb ∧ p.drawProb > p.team2WinProb →
      |(ensurePredictionConsistency p m).2| ≤ 0.2 * |m|) ∧
    (predictedWinnerOf p ≠ Winner.draw →
      marginPredictedWinnerOf m ≠ predictedWinnerOf p →
      |(ensurePredictionConsistency p m).2| = max 0.25 (0.8 * |m|) ∧
        ((ensurePredictionConsistency p m).2 > 0 ↔ predictedWinnerOf p = Winner.team1)) := by
  constructor
  · rintro ⟨h1, h2⟩
    have hw := predictedWinnerOf_draw p h1 h2
    unfold ensurePredictionConsistency
    rw [if_pos hw, abs_mul]
    rw [show |(0.2 : ℝ)| = 0.2 by norm_num]
    linarith [abs_nonneg m]
  · intro h1 h2
    unfold ensurePredictionConsistency
    rw [if_neg h1, if_pos (Ne.symm h2)]
    have hmax : (0 : ℝ) < max 0.25 (|m| * 0.8) :=
      lt_max_of_lt_left (by norm_num)
    rcases hpw : predictedWinnerOf p with _ | _ | _
    · rw [if_pos rfl]
      refine ⟨?_, by simpa using hmax⟩
      rw [abs_of_pos hmax]
      rw [mul_comm]
    · rw [if_neg (by simp), if_pos rfl]
      have hmin : min (-0.25) (-(|m| * 0.8)) = -max 0.25 (|m| * 0.8) := by
        rw [← min_neg_neg]
      refine ⟨?_, ?_⟩
      · rw [hmin, abs_neg, abs_of_pos hmax, mul_comm]
      · simp only [hmin]
        constructor
        · intro hpos
          exfalso
          linarith
        · intro hcontra
          exact absurd hcontra (by simp)
    · exact absurd hpw h1

/-- C2 witness: a strict-draw-max triple obeys the 20% shrink bound, and a
team1-max triple with a team2-leaning margin is forced to the positive
magnitude `max(0.25, 0.8 × |margin|)`. -/
theorem C2_witness :
    |(ensurePredictionConsistency ⟨30, 30, 40⟩ 1).2| ≤ 0.2 * |(1 : ℝ)| ∧
      |(ensurePredictionConsistency ⟨50, 30, 20⟩ (-1)).2| = max 0.25 (0.8 * |(-1 : ℝ)|) := by
  constructor
  · exact (C2_reconciliation ⟨30, 30, 40⟩ 1).1 (by norm_num)
  · refine ((C2_reconciliation ⟨50, 30, 20⟩ (-1)).2 ?_ ?_).1
    · unfold predictedWinnerOf
      rw [show max (50 : ℝ) (max 30 20) = 50 by
        rw [max_eq_left (by norm_num : (20 : ℝ) ≤ 30)]
        exact max_eq_left (by norm_num), if_pos rfl]
      simp
    · unfold predictedWinnerOf marginPredictedWinnerOf
      rw [show max (50 : ℝ) (max 30 20) = 50 by
        rw [max_eq_left (by norm_num : (20 : ℝ) ≤ 30)]
        exact max_eq_left (by norm_num), if_pos rfl]
      rw [if_neg (by norm_num), if_pos (by norm_num)]
      simp

theorem drawProbStage_ge_5 (f : FeatureSnapshot) : 5 ≤ drawProbStage f :=
  le_max_left _ _

theorem drawProbStage_le_45 (f : FeatureSnapshot) : drawProbStage f ≤ 45 :=
  max_le (by norm_num) (min_le_left _ _)

theorem sum_winProbsRaw (f : FeatureSnapshot) :
    (winProbsRaw f).team1WinProb + (winProbsRaw f).team2WinProb + (winProbsRaw f).drawProb =
      100 := by
  simp only [winProbsRaw]
  ring

theorem winProbsNormalized_eq_raw (f : FeatureSnapshot) :
    winProbsNormalized f = winProbsRaw f := by
  unfold winProbsNormalized
  dsimp only
  rw [sum_winProbsRaw]
  have h100 : (100 : ℝ) ≠ 0 := by norm_num
  rw [div_mul_cancel₀ _ h100, div_mul_cancel₀ _ h100, div_mul_cancel₀ _ h100]

theorem sum_winProbsNormalized (f : FeatureSnapshot) :
    (winProbsNormalized f).team1WinProb + (winProbsNormalized f).team2WinProb +
      (winProbsNormalized f).drawProb = 100 := by
  rw [winProbsNormalized_eq_raw]
  exact sum_winProbsRaw f

theorem sum_winProbsBlended (f : FeatureSnapshot) :
    (winProbsBlended f).team1WinProb + (winProbsBlended f).team2WinProb +
      (winProbsBlended f).drawProb = 100 := by
  unfold winProbsBlended
  split_ifs
  · exact sum_winProbsNormalized f
  · simp only
    linarith [sum_winProbsNormalized f]

theorem winProbsRaw_nonneg (f : FeatureSnapshot) :
    0 ≤ (winProbsRaw f).team1WinProb ∧ 0 ≤ (winProbsRaw f).team2WinProb ∧
      0 ≤ (winProbsRaw f).drawProb := by
  have hd5 := drawProbStage_ge_5 f
  have hd45 := drawProbStage_le_45 f
  have hden : (1 : ℝ) ≤ 1 + Real.exp (-normalizedAdvantage f) := by
    linarith [Real.exp_pos (-normalizedAdvantage f)]
  have hmass : (0 : ℝ) ≤ 100 - drawProbStage f := by linarith
  have ht1 : 0 ≤ baseTeam1WinProb f := by
    unfold baseTeam1WinProb
    exact div_nonneg hmass (by linarith)
  have ht1le : baseTeam1WinProb f ≤ 100 - drawProbStage f := by
    unfold baseTeam1WinProb
    exact div_le_self hmass hden
  refine ⟨?_, ?_, ?_⟩
  · simpa [winProbsRaw] using ht1
  · simp only [winProbsRaw]
    linarith
  · simp only [winProbsRaw]
    linarith

theorem winProbsBlended_nonneg (f : FeatureSnapshot) :
    0 ≤ (winProbsBlended f).team1WinProb ∧ 0 ≤ (winProbsBlended f).team2WinProb ∧
      0 ≤ (winProbsBlended f).drawProb := by
  have h := winProbsRaw_nonneg f
  rw [← winProbsNormalized_eq_raw] at h
  unfold winProbsBlended
  split_ifs
  · exact h
  · refine ⟨?_, ?_, ?_⟩ <;> simp only <;> [linarith [h.1]; linarith [h.2.1]; linarith [h.2.2]]

theorem floor_renorm_bound (p1 p2 p3 : ℝ) (h1 : 0 ≤ p1) (h2 : 0 ≤ p2) (h3 : 0 ≤ p3)
    (hsum : p1 + p2 + p3 = 100) :
    100 / 23 ≤ max 5 p1 / (max 5 p1 + max 5 p2 + max 5 p3) * 100 ∧
      100 / 23 ≤ max 5 p2 / (max 5 p1 + max 5 p2 + max 5 p3) * 100 ∧
      100 / 23 ≤ max 5 p3 / (max 5 p1 + max 5 p2 + max 5 p3) * 100 := by
  have hm1 : (5 : ℝ) ≤ max 5 p1 := le_max_left _ _
  have hm2 : (5 : ℝ) ≤ max 5 p2 := le_max_left _ _
  have hm3 : (5 : ℝ) ≤ max 5 p3 := le_max_left _ _
  have hu1 : max 5 p1 ≤ p1 + 5 := max_le (by linarith) (by linarith)
  have hu2 : max 5 p2 ≤ p2 + 5 := max_le (by linarith) (by linarith)
  have hu3 : max 5 p3 ≤ p3 + 5 := max_le (by linarith) (by linarith)
  have hTpos : (0 : ℝ) < max 5 p1 + max 5 p2 + max 5 p3 := by linarith
  have hTle : max 5 p1 + max 5 p2 + max 5 p3 ≤ 115 := by linarith
  refine ⟨?_, ?_, ?_⟩ <;>
    · rw [div_mul_eq_mul_div, le_div_iff₀ hTpos]
      nlinarith

/-- C3: the win/draw/loss probabilities sum to exactly 100 after the first
normalization, after the insufficient-data 30% blend toward the neutral prior
(40/40/20), and after the final floor-at-5-and-renormalize (in particular,
within 1e-9). -/
theorem C3_sums_to_100 (f : FeatureSnapshot) :
    (winProbsNormalized f).team1WinProb + (winProbsNormalized f).team2WinProb +
        (winProbsNormalized f).drawProb = 100 ∧
      (winProbsBlended f).team1WinProb + (winProbsBlended f).team2WinProb +
        (winProbsBlended f).drawProb = 100 ∧
      (calculateModelV1WinProbabilities f).team1WinProb +
        (calculateModelV1WinProbabilities f).team2WinProb +
        (calculateModelV1WinProbabilities f).drawProb = 100 := by
  refine ⟨sum_winProbsNormalized f, sum_winProbsBlended f, ?_⟩
  unfold calculateModelV1WinProbabilities
  set m1 := max 5 (winProbsBlended f).team1WinProb with hm1
  set m2 := max 5 (winProbsBlended f).team2WinProb with hm2
  set m3 := max 5 (winProbsBlended f).drawProb with hm3
  have h1 : (5 : ℝ) ≤ m1 := le_max_left _ _
  have h2 : (5 : ℝ) ≤ m2 := le_max_left _ _
  have h3 : (5 : ℝ) ≤ m3 := le_max_left _ _
  have hT : m1 + m2 + m3 ≠ 0 := by positivity
  field_simp
  ring

/-- C1 (amended): after the final floor-and-renormalize, every returned
probability is at least `100/23 ≈ 4.348` (the floor at 5 can push the
renormalization divisor above 100, so 5 itself is not always attained). -/
theorem C1_floor_renormalize_lower_bound (f : FeatureSnapshot) :
    100 / 23 ≤ (calculateModelV1WinProbabilities f).team1WinProb ∧
      100 / 23 ≤ (calculateModelV1WinProbabilities f).team2WinProb ∧
      100 / 23 ≤ (calculateModelV1WinProbabilities f).drawProb := by
  obtain ⟨h1, h2, h3⟩ := winProbsBlended_nonneg f
  have hb := floor_renorm_bound _ _ _ h1 h2 h3 (sum_winProbsBlended f)
  unfold calculateModelV1WinProbabilities
  exact hb

/-- C7: the draw probability computed before the win split equals the spec's
formula — base `35 − 4×(combined scoring rate) − 15×|attack difference|`,
plus 10 when both defense strengths are below 0.8, plus `8×(importance−1.3)`
when importance exceeds 1.3 — clamped to `[5, 45]`. -/
theorem C7_draw_probability_formula (f : FeatureSnapshot) :
    drawProbStage f = drawProbSpec f ∧ 5 ≤ drawProbStage f ∧ drawProbStage f ≤ 45 := by
  refine ⟨?_, drawProbStage_ge_5 f, drawProbStage_le_45 f⟩
  unfold drawProbStage drawProbSpec baseDrawRate
  dsimp only
  rw [max_min_distrib_left, max_eq_right (by norm_num : (5 : ℝ) ≤ 45)]
  congr 1
  split_ifs <;> (congr 1; ring)

theorem exp_three_gt_ten : (10 : ℝ) < Real.exp 3 := by
  have h1 : (2.2 : ℝ) < Real.exp 1 := lt_trans (by norm_num) Real.exp_one_gt_d9
  have h3 : Real.exp 3 = Real.exp 1 ^ 3 := by
    rw [show (3 : ℝ) = ((3 : ℕ) : ℝ) * 1 by norm_num, Real.exp_nat_mul]
  have hp : (2.2 : ℝ) ^ 3 < Real.exp 1 ^ 3 :=
    pow_lt_pow_left₀ h1 (by norm_num) (by norm_num)
  rw [h3]
  nlinarith

theorem cxFeatures_drawProbStage : drawProbStage cxFeatures = 45 := by
  have hbase : baseDrawRate cxFeatures = 45 := by
    unfold baseDrawRate attackDifference cxFeatures
    norm_num
  unfold drawProbStage
  rw [hbase, min_self, max_eq_right (by norm_num : (5 : ℝ) ≤ 45)]

theorem cxFeatures_advantage : normalizedAdvantage cxFeatures = -3 := by
  have hc : advantageCoefficient cxFeatures = -34 / 5 := by
    unfold advantageCoefficient attackDifference cxFeatures
    norm_num [WEIGHTS.OVERALL_PERFORMANCE, WEIGHTS.RECENT_FORM, WEIGHTS.H2H_MATCHES,
      WEIGHTS.MOMENTUM]
  unfold normalizedAdvantage
  rw [hc, min_eq_right (by norm_num : (-34 / 5 : ℝ) ≤ 3),
    max_eq_left (by norm_num : (-34 / 5 : ℝ) ≤ -3)]

/-- C1 counterexample: at the concrete snapshot `cxFeatures` (sufficient data,
draw probability at the 45 clamp, advantage at the −3 clamp) the returned
`team1WinProb` is strictly below 5: the pre-floor value `55/(1+e³) < 5` is
floored to 5 but the renormalization divisor exceeds 100. -/
theorem C1_counterexample :
    (calculateModelV1WinProbabilities cxFeatures).team1WinProb < 5 := by
  have hd := cxFeatures_drawProbStage
  have hden : (0 : ℝ) < 1 + Real.exp 3 := by positivity
  have ht1 : baseTeam1WinProb cxFeatures = 55 / (1 + Real.exp 3) := by
    unfold baseTeam1WinProb
    rw [hd, cxFeatures_advantage]
    norm_num
  have ht1lt : baseTeam1WinProb cxFeatures < 5 := by
    rw [ht1, div_lt_iff₀ hden]
    nlinarith [exp_three_gt_ten]
  have ht1pos : 0 < baseTeam1WinProb cxFeatures := by
    rw [ht1]
    positivity
  have hblend : winProbsBlended cxFeatures = winProbsRaw cxFeatures := by
    unfold winProbsBlended
    dsimp only
    rw [if_pos (show cxFeatures.dataQuality.dataSufficiency = true from rfl)]
    exact winProbsNormalized_eq_raw cxFeatures
  unfold calculateModelV1WinProbabilities
  dsimp only
  rw [hblend]
  simp only [winProbsRaw]
  rw [hd]
  rw [max_eq_left ht1lt.le,
    max_eq_right (by linarith : (5 : ℝ) ≤ 100 - 45 - baseTeam1WinProb cxFeatures),
    max_eq_right (by norm_num : (5 : ℝ) ≤ 45)]
  rw [div_mul_eq_mul_div, div_lt_iff₀ (by linarith :
    (0 : ℝ) < 5 + (100 - 45 - baseTeam1WinProb cxFeatures) + 45)]
  linarith

theorem poissonProbability_nonneg (k : ℕ) (lambda : ℝ) :
    0 ≤ poissonProbability k lambda := by
  unfold poissonProbability
  split_ifs with h1 h2
  · norm_num
  · norm_num
  · have hl : 0 < lambda := not_le.mp h1
    positivity

theorem poissonProbability_zero_pos (lambda : ℝ) : 0 < poissonProbability 0 lambda := by
  unfold poissonProbability
  split_ifs with h1 h2
  · norm_num
  · exact absurd rfl h2
  · have hl : 0 < lambda := not_le.mp h1
    positivity

theorem rawScoreProb_nonneg (pt m1 m2 : ℝ) (t1 t2 : ℕ) :
    0 ≤ rawScoreProb pt m1 m2 t1 t2 := by
  have h1 := poissonProbability_nonneg t1 m1
  have h2 := poissonProbability_nonneg t2 m2
  unfold rawScoreProb
  dsimp only
  split_ifs <;>
    · repeat
        first
          | exact mul_nonneg h1 h2
          | refine mul_nonneg ?_ (by norm_num)

theorem rawScoreProb_zero_zero_pos (pt m1 m2 : ℝ) : 0 < rawScoreProb pt m1 m2 0 0 := by
  have h1 := poissonProbability_zero_pos m1
  have h2 := poissonProbability_zero_pos m2
  unfold rawScoreProb
  dsimp only
  norm_num
  split_ifs <;> nlinarith [mul_pos h1 h2]

theorem rawScoreCells_mem_zero (pt pm : ℝ) :
    rawScoreProb pt (pt / 2 + pm / 2) (pt / 2 - pm / 2) 0 0 ∈
      (rawScoreCells pt pm).map ScoreCell.probability := by
  unfold rawScoreCells
  dsimp only
  rw [List.mem_map]
  refine ⟨⟨0, 0, rawScoreProb pt (pt / 2 + pm / 2) (pt / 2 - pm / 2) 0 0⟩, ?_, rfl⟩
  rw [List.mem_flatMap]
  refine ⟨0, by simp, ?_⟩
  rw [List.mem_map]
  exact ⟨0, by simp, rfl⟩

theorem rawScoreCells_nonneg (pt pm : ℝ) :
    ∀ x ∈ (rawScoreCells pt pm).map ScoreCell.probability, 0 ≤ x := by
  intro x hx
  rw [List.mem_map] at hx
  obtain ⟨c, hc, rfl⟩ := hx
  unfold rawScoreCells at hc
  dsimp only at hc
  rw [List.mem_flatMap] at hc
  obtain ⟨t1, ht1, hc⟩ := hc
  rw [List.mem_map] at hc
  obtain ⟨t2, ht2, rfl⟩ := hc
  exact rawScoreProb_nonneg _ _ _ _ _

theorem rawScoreTotal_pos (pt pm : ℝ) : 0 < rawScoreTotal pt pm := by
  unfold rawScoreTotal
  have hle := List.single_le_sum (rawScoreCells_nonneg pt pm) _ (rawScoreCells_mem_zero pt pm)
  have hpos := rawScoreProb_zero_zero_pos pt (pt / 2 + pm / 2) (pt / 2 - pm / 2)
  linarith

theorem sum_map_div_mul_100 (l : List ℝ) (T : ℝ) :
    (l.map fun x => x / T * 100).sum = l.sum / T * 100 := by
  induction l with
  | nil => simp
  | cons a t ih =>
      rw [List.map_cons, List.sum_cons, List.sum_cons, ih]
      ring

theorem sum_normalizedScoreCells (pt pm : ℝ) :
    ((normalizedScoreCells pt pm).map ScoreCell.probability).sum = 100 := by
  unfold normalizedScoreCells
  rw [List.map_map]
  rw [show (ScoreCell.probability ∘ fun d : ScoreCell =>
      { d with probability := d.probability / rawScoreTotal pt pm * 100 }) =
    (fun x => x / rawScoreTotal pt pm * 100) ∘ ScoreCell.probability from rfl]
  rw [← List.map_map, sum_map_div_mul_100]
  rw [show ((rawScoreCells pt pm).map ScoreCell.probability).sum = rawScoreTotal pt pm
    from rfl]
  rw [div_self (ne_of_gt (rawScoreTotal_pos pt pm)), one_mul]

theorem scoreOtherProb_eq_zero (pt pm : ℝ) : scoreOtherProb pt pm = 0 := by
  unfold scoreOtherProb
  rw [sum_normalizedScoreCells]
  norm_num

/-- C4: the returned score-distribution table sums to exactly 100 (hence
within 1e-6), and an "Other" bucket is present exactly when the remainder
exceeds 0.1 — in exact arithmetic the remainder is 0, so both sides of the
biconditional are false. -/
theorem C4_score_distribution (pt pm : ℝ) :
    ((generateScoreDistribution pt pm).map ScoreCell.probability).sum = 100 ∧
      ((∃ c ∈ generateScoreDistribution pt pm, c.team1Score = -1) ↔
        scoreOtherProb pt pm > 0.1) := by
  have hother := scoreOtherProb_eq_zero pt pm
  have hnot : ¬(scoreOtherProb pt pm > 0.1) := by
    rw [hother]
    norm_num
  have hgen : generateScoreDistribution pt pm =
      List.mergeSort (normalizedScoreCells pt pm)
        (fun a b => decide (b.probability ≤ a.probability)) := by
    unfold generateScoreDistribution
    dsimp only
    rw [if_neg hnot]
  have hperm : (List.mergeSort (normalizedScoreCells pt pm)
      (fun a b => decide (b.probability ≤ a.probability))).Perm
        (normalizedScoreCells pt pm) := List.mergeSort_perm _ _
  constructor
  · rw [hgen, (hperm.map ScoreCell.probability).sum_eq]
    exact sum_normalizedScoreCells pt pm
  · rw [hgen]
    constructor
    · rintro ⟨c, hc, hc1⟩
      exfalso
      have hcmem := hperm.mem_iff.mp hc
      unfold normalizedScoreCells rawScoreCells at hcmem
      dsimp only at hcmem
      rw [List.mem_map] at hcmem
      obtain ⟨d, hd, rfl⟩ := hcmem
      rw [List.mem_flatMap] at hd
      obtain ⟨t1, ht1, hd⟩ := hd
      rw [List.mem_map] at hd
      obtain ⟨t2, ht2, rfl⟩ := hd
      simp only at hc1
      omega
    · intro h
      exact absurd h hnot

/-- C10: `ensurePredictionConsistency` returns the input probabilities
unchanged in every branch; only the margin component can differ. -/
theorem C10_probabilities_unchanged (p : Probabilities) (projectedMargin : ℝ) :
    (ensurePredictionConsistency p projectedMargin).1 = p := by
  unfold ensurePredictionConsistency
  split_ifs <;> rfl

end ModelV2
